import Mathlib

/-!
Verification of the natural-language-to-SQL query pipeline of the
rag-chat-n8n repository.

The definitions below are a shallow embedding of the TypeScript source:

* `src/utils/validators.ts` — `validateSqlQuery`, `ensureQueryLimit`,
  `formatTimestamps`, `formatDate`, `validateChatMessage`;
* `src/services/n8n.service.ts` — `executeQuery` response handling;
* `src/services/schema.service.ts` — `getSchema` / `refreshSchema`;
* `src/controllers/chat.controller.ts` — `processChat` orchestration.

Strings are modelled as Lean `String` (lists of characters); this agrees
with JavaScript strings on the Basic Multilingual Plane, which covers every
character the program manipulates.  JavaScript regular expressions used by
the source are embedded as explicit token-list matchers with backtracking.
-/

/-! ## Character-level utilities (JavaScript string semantics) -/

/-- The characters matched by JavaScript `\s` (and removed by
`String.prototype.trim`): ASCII whitespace, NBSP, the Unicode space
separators, line/paragraph separators, narrow NBSP, medium mathematical
space, ideographic space and the BOM. -/
def isJsWs (c : Char) : Bool :=
  (0x9 ≤ c.toNat && c.toNat ≤ 0xd) || c.toNat == 0x20 || c.toNat == 0xa0 ||
  c.toNat == 0x1680 || (0x2000 ≤ c.toNat && c.toNat ≤ 0x200a) ||
  c.toNat == 0x2028 || c.toNat == 0x2029 || c.toNat == 0x202f ||
  c.toNat == 0x205f || c.toNat == 0x3000 || c.toNat == 0xfeff

/-- ASCII upper-casing, as performed by `String.prototype.toUpperCase` on
the ASCII range (the only range the embedded program compares). -/
def jsUpper (c : Char) : Char :=
  if 0x61 ≤ c.toNat && c.toNat ≤ 0x7a then Char.ofNat (c.toNat - 0x20) else c

/-- JavaScript `String.prototype.trim`: drop `\s` characters from both ends. -/
def jsTrim (cs : List Char) : List Char :=
  ((cs.dropWhile isJsWs).reverse.dropWhile isJsWs).reverse

/-- Does `cs` start with the character list `p`?  (JS `startsWith`.) -/
def startsWithChars : List Char → List Char → Bool
  | _, [] => true
  | [], _ :: _ => false
  | c :: cs, p :: ps => (c == p) && startsWithChars cs ps

/-- Does `hay` contain `needle` as a contiguous substring?  (JS `includes`.) -/
def containsSub : List Char → List Char → Bool
  | [], needle => startsWithChars [] needle
  | c :: rest, needle => startsWithChars (c :: rest) needle || containsSub rest needle

/-- Does the list end with a semicolon?  (JS `endsWith(";")`.) -/
def lastIsSemi (cs : List Char) : Bool :=
  match cs.reverse with
  | ';' :: _ => true
  | _ => false

/-! ## Embedded regular expressions

The source uses a fixed set of regexes.  Each is embedded as a list of
tokens; `\s*` is expanded into the two alternatives `ε` and `\s+`, which is
semantically equivalent for the test-only uses in the source. -/

/-- One token of an embedded regular expression: a case-insensitive
character (patterns compiled with the `i` flag), an exact character,
`\s+`, a single `\d`, or `\d+`. -/
inductive Tok where
  | chrI (c : Char)
  | chrX (c : Char)
  | ws1
  | digit1
  | digits1
deriving DecidableEq, Repr

/-- Does the token list match a prefix of `cs`?  Backtracking matcher for
the token language above (structural recursion on the character list). -/
def matchToks : List Tok → List Char → Bool
  | [], _ => true
  | _ :: _, [] => false
  | .chrI p :: ps, c :: cs => (jsUpper c == jsUpper p) && matchToks ps cs
  | .chrX p :: ps, c :: cs => (c == p) && matchToks ps cs
  | .ws1 :: ps, c :: cs => isJsWs c && (matchToks ps cs || matchToks (.ws1 :: ps) cs)
  | .digit1 :: ps, c :: cs => c.isDigit && matchToks ps cs
  | .digits1 :: ps, c :: cs => c.isDigit && (matchToks ps cs || matchToks (.digits1 :: ps) cs)

/-- Does the token list match anywhere in `cs`?  (JS `RegExp.prototype.test`
for an unanchored pattern.) -/
def patSearch (ps : List Tok) : List Char → Bool
  | [] => matchToks ps []
  | c :: cs => matchToks ps (c :: cs) || patSearch ps cs

/-- A literal word under the `i` flag, as a token list. -/
def litI (s : String) : List Tok := s.data.map Tok.chrI

/-- The `dangerousPatterns` array of `validateSqlQuery`
(`src/utils/validators.ts` lines 15-32).  `SLEEP\s*\(` and
`BENCHMARK\s*\(` are each expanded into their two `\s*` alternatives. -/
def dangerousPatterns : List (List Tok) :=
  [ litI "DROP" ++ [.ws1]
  , litI "DELETE" ++ [.ws1]
  , litI "TRUNCATE" ++ [.ws1]
  , litI "INSERT" ++ [.ws1]
  , litI "UPDATE" ++ [.ws1]
  , litI "ALTER" ++ [.ws1]
  , litI "CREATE" ++ [.ws1]
  , litI "GRANT" ++ [.ws1]
  , litI "REVOKE" ++ [.ws1]
  , litI "RENAME" ++ [.ws1]
  , litI "LOAD" ++ [.ws1] ++ litI "DATA"
  , litI "INTO" ++ [.ws1] ++ litI "OUTFILE"
  , litI "INFORMATION_SCHEMA"
  , litI "SLEEP" ++ [.chrI '(']
  , litI "SLEEP" ++ [.ws1, .chrI '(']
  , litI "BENCHMARK" ++ [.chrI '(']
  , litI "BENCHMARK" ++ [.ws1, .chrI '(']
  , litI "SHUTDOWN"
  ]

/-- The regex `LIMIT\s+\d+` (with the `i` flag) used by `ensureQueryLimit`. -/
def limitToks : List Tok := litI "LIMIT" ++ [.ws1, .digits1]

/-- The anchored regex `^\d{4}-\d{2}-\d{2}T\d{2}:\d{2}:\d{2}` (no `i` flag)
used by `formatTimestamps` to recognise timestamp-shaped strings. -/
def tsToks : List Tok :=
  [.digit1, .digit1, .digit1, .digit1, .chrX '-', .digit1, .digit1, .chrX '-',
   .digit1, .digit1, .chrX 'T', .digit1, .digit1, .chrX ':', .digit1, .digit1,
   .chrX ':', .digit1, .digit1]

deriving instance DecidableEq for Except

/-! ## `validateSqlQuery` -/

/-- The distinct rejection reasons of `validateSqlQuery`; the source throws
`Error`s whose message texts are abstracted to these kinds. -/
inductive SqlError where
  | dangerousOperation
  | notReadOnly
  | unbalancedParens
  | multipleStatements
  | commentsNotAllowed
  | queryTooLong
deriving DecidableEq, Repr

/-- `validateSqlQuery` (`src/utils/validators.ts` lines 13-70): the six
checks in source order; a throw is modelled as `Except.error`. -/
def validateSqlQuery (sql : String) : Except SqlError Bool :=
  if dangerousPatterns.any fun p => patSearch p sql.data then
    .error .dangerousOperation
  else if !startsWithChars ((jsTrim sql.data).map jsUpper) "SELECT".data then
    .error .notReadOnly
  else if sql.data.count '(' != sql.data.count ')' then
    .error .unbalancedParens
  else if sql.data.contains ';' && !lastIsSemi (jsTrim sql.data) then
    .error .multipleStatements
  else if containsSub sql.data "--".data || containsSub sql.data "/*".data then
    .error .commentsNotAllowed
  else if sql.data.length > 2000 then
    .error .queryTooLong
  else
    .ok true

/-! ## `ensureQueryLimit` -/

/-- Decimal digit characters, as produced by JavaScript number-to-string
conversion of a small natural number. -/
def tdc : Nat → Char
  | 0 => '0'
  | 1 => '1'
  | 2 => '2'
  | 3 => '3'
  | 4 => '4'
  | 5 => '5'
  | 6 => '6'
  | 7 => '7'
  | 8 => '8'
  | _ => '9'

/-- Fuelled accumulator loop rendering a natural number in decimal
(most significant digit first); the fuel is always at least `n`. -/
def natToCharsGo : Nat → Nat → List Char → List Char
  | 0, _, acc => acc
  | f + 1, n, acc =>
    if n < 10 then tdc n :: acc
    else natToCharsGo f (n / 10) (tdc (n % 10) :: acc)

/-- Decimal rendering of a natural number, as JavaScript `${limit}`
renders a non-negative integer. -/
def natToChars (n : Nat) : List Char := natToCharsGo (n + 1) n []

/-- `ensureQueryLimit` on character lists (`src/utils/validators.ts`
lines 78-91): if `LIMIT\s+\d+` occurs nowhere, append
`" LIMIT " + limit` to the trimmed query, before a trailing semicolon
when one is present. -/
def ensureQueryLimitL (cs : List Char) (limit : Nat) : List Char :=
  if patSearch limitToks cs then cs
  else
    let t := jsTrim cs
    if lastIsSemi t then
      t.dropLast ++ ' ' :: 'L' :: 'I' :: 'M' :: 'I' :: 'T' :: ' ' :: (natToChars limit ++ [';'])
    else
      t ++ ' ' :: 'L' :: 'I' :: 'M' :: 'I' :: 'T' :: ' ' :: natToChars limit

/-- `ensureQueryLimit(sql, limit)`; the source defaults `limit` to `100`. -/
def ensureQueryLimit (sql : String) (limit : Nat) : String :=
  String.mk (ensureQueryLimitL sql.data limit)

/-! ## `validateChatMessage` -/

/-- `validateChatMessage` (`src/utils/validators.ts` lines 143-157) as a
pass/fail predicate: the message must be a non-empty string (JS truthiness
of a string is non-emptiness), must not be blank after trimming, and must
be at most 1000 characters long.  The three distinct error messages are
abstracted to `false`. -/
def validateChatMessageOk (message : String) : Bool :=
  !(message == "") && !((jsTrim message.data).length == 0) &&
    !(message.data.length > 1000)

/-! ## JavaScript values, `Date`, and `formatTimestamps`

Result-row cell values are modelled by `JsValue`.  A JavaScript `Date` is
modelled by its UTC calendar components (`DateTime`), with `none` standing
for an Invalid Date.  Only the `Z`-suffixed (UTC) instances of the
ECMAScript date-time string format are given parse semantics; every claim
about timestamp rewriting concerns only such strings, and no claim depends
on the value produced for any other shape. -/

/-- UTC calendar components of a valid JavaScript `Date`. -/
structure DateTime where
  year : Nat
  month : Nat
  day : Nat
  hour : Nat
  minute : Nat
  second : Nat
  ms : Nat
deriving DecidableEq, Repr

/-- A JavaScript value occurring in a result row: a string, a number
(modelled as an integer), a boolean, `null`, or a `Date` object
(`none` = Invalid Date). -/
inductive JsValue where
  | vStr (s : String)
  | vNum (n : Int)
  | vBool (b : Bool)
  | vNull
  | vDate (d : Option DateTime)
deriving DecidableEq, Repr

/-- Two-digit zero-padded decimal rendering. -/
def pad2L (n : Nat) : List Char := [tdc (n / 10 % 10), tdc (n % 10)]

/-- Three-digit zero-padded decimal rendering. -/
def pad3L (n : Nat) : List Char := [tdc (n / 100 % 10), tdc (n / 10 % 10), tdc (n % 10)]

/-- Four-digit zero-padded decimal rendering. -/
def pad4L (n : Nat) : List Char :=
  [tdc (n / 1000 % 10), tdc (n / 100 % 10), tdc (n / 10 % 10), tdc (n % 10)]

/-- The characters of `Date.prototype.toISOString` for a date whose year is
at most 9999: `YYYY-MM-DDTHH:MM:SS.mmmZ`. -/
def dateToIsoChars (t : DateTime) : List Char :=
  pad4L t.year ++ '-' :: pad2L t.month ++ '-' :: pad2L t.day ++
  'T' :: pad2L t.hour ++ ':' :: pad2L t.minute ++ ':' :: pad2L t.second ++
  '.' :: pad3L t.ms ++ ['Z']

/-- `Date.prototype.toISOString`. -/
def toISOString (t : DateTime) : String := String.mk (dateToIsoChars t)

/-- The `Z`-suffixed ISO form without a fractional-seconds part
(`YYYY-MM-DDTHH:MM:SSZ`), also accepted by the `Date` constructor. -/
def isoNoMsString (t : DateTime) : String :=
  String.mk (pad4L t.year ++ '-' :: pad2L t.month ++ '-' :: pad2L t.day ++
    'T' :: pad2L t.hour ++ ':' :: pad2L t.minute ++ ':' :: pad2L t.second ++ ['Z'])

/-- Replace the first occurrence of `target` by `repl`
(JS `String.prototype.replace` with a string pattern). -/
def replaceFirst (target repl : Char) : List Char → List Char
  | [] => []
  | c :: cs => if c == target then repl :: cs else c :: replaceFirst target repl cs

/-- `formatDate` (`src/utils/validators.ts` lines 128-136): Invalid Dates
render as `"Invalid Date"`; otherwise take the ISO string, replace the
`'T'` by a space, and keep the first 19 characters. -/
def formatDate (d : Option DateTime) : String :=
  match d with
  | none => "Invalid Date"
  | some t => String.mk (List.take 19 (replaceFirst 'T' ' ' (dateToIsoChars t)))

/-- Leap-year test of the proleptic Gregorian calendar. -/
def isLeap (y : Nat) : Bool := (y % 4 == 0 && y % 100 != 0) || y % 400 == 0

/-- Days in a month of the Gregorian calendar (month given 1-based). -/
def daysInMonth (y m : Nat) : Nat :=
  match m with
  | 2 => if isLeap y then 29 else 28
  | 4 => 30
  | 6 => 30
  | 9 => 30
  | 11 => 30
  | _ => 31

/-- Numeric value of a decimal digit character. -/
def digitVal (c : Char) : Nat := c.toNat - 48

/-- Range check of the calendar components parsed from a date string; an
out-of-range component yields an Invalid Date. -/
def mkValidDate (y mo d h mi s ms : Nat) : Option DateTime :=
  if 1 ≤ mo ∧ mo ≤ 12 ∧ 1 ≤ d ∧ d ≤ daysInMonth y mo ∧ h ≤ 23 ∧ mi ≤ 59 ∧
      s ≤ 59 ∧ ms ≤ 999 then
    some ⟨y, mo, d, h, mi, s, ms⟩
  else
    none

/-- Suffix of a parsed date string after the seconds field: either `Z`, or
a three-digit fraction followed by `Z`.  Returns the millisecond count. -/
def parseMsZ : List Char → Option Nat
  | ['Z'] => some 0
  | ['.', a, b, c, 'Z'] =>
    if a.isDigit && b.isDigit && c.isDigit then
      some (100 * digitVal a + 10 * digitVal b + digitVal c)
    else none
  | _ => none

/-- `new Date(s)` for the UTC (`Z`-suffixed) instances of the ECMAScript
date-time string format; every other string is modelled as an Invalid
Date (`none`), which no claim depends on. -/
def jsNewDate (s : String) : Option DateTime :=
  match s.data with
  | y1 :: y2 :: y3 :: y4 :: '-' :: m1 :: m2 :: '-' :: d1 :: d2 :: 'T' ::
      h1 :: h2 :: ':' :: i1 :: i2 :: ':' :: s1 :: s2 :: rest =>
    if y1.isDigit && y2.isDigit && y3.isDigit && y4.isDigit &&
        m1.isDigit && m2.isDigit && d1.isDigit && d2.isDigit &&
        h1.isDigit && h2.isDigit && i1.isDigit && i2.isDigit &&
        s1.isDigit && s2.isDigit then
      match parseMsZ rest with
      | some ms =>
        mkValidDate
          (1000 * digitVal y1 + 100 * digitVal y2 + 10 * digitVal y3 + digitVal y4)
          (10 * digitVal m1 + digitVal m2)
          (10 * digitVal d1 + digitVal d2)
          (10 * digitVal h1 + digitVal h2)
          (10 * digitVal i1 + digitVal i2)
          (10 * digitVal s1 + digitVal s2)
          ms
      | none => none
    else none
  | _ => none

/-- One cell of `formatTimestamps` (`src/utils/validators.ts` lines
107-117): `Date` objects are formatted; strings whose prefix matches
`^\d{4}-\d{2}-\d{2}T\d{2}:\d{2}:\d{2}` are parsed and formatted; every
other value is left unchanged. -/
def formatValue (v : JsValue) : JsValue :=
  match v with
  | .vDate d => .vStr (formatDate d)
  | .vStr s => if matchToks tsToks s.data then .vStr (formatDate (jsNewDate s)) else .vStr s
  | v => v

/-- A result row: an ordered association of column names to values
(JavaScript object, insertion order). -/
abbrev JsRow := List (String × JsValue)

/-- `formatTimestamps` (`src/utils/validators.ts` lines 98-121): map every
row, rewriting each cell by `formatValue`; keys and order are those of the
spread copy of the row. -/
def formatTimestamps (results : List JsRow) : List JsRow :=
  results.map fun row => row.map fun kv => (kv.1, formatValue kv.2)

/-- The canonical `YYYY-MM-DD HH:MM:SS` rendering of calendar components. -/
def canonicalTs (y mo d h mi s : Nat) : String :=
  String.mk (pad4L y ++ '-' :: pad2L mo ++ '-' :: pad2L d ++
    ' ' :: pad2L h ++ ':' :: pad2L mi ++ ':' :: pad2L s)

/-! ## n8n query execution (`src/services/n8n.service.ts`)

The HTTP layer is abstracted: an `Except.error` argument stands for a
network failure or an empty response body, and a delivered JSON body is
modelled by `N8nData`.  A `results` field that is present but not
list-shaped cannot arise in this typed model; saving the JSON artifact has
no effect on the returned value (its failure is swallowed by the source)
and is omitted. -/

/-- The JSON body returned by the n8n webhook, restricted to the fields the
service inspects. -/
structure N8nData where
  message : Option String
  results : Option (List JsRow)
deriving DecidableEq

/-- The normalized result of `executeQuery`. -/
structure QueryExecutionResponse where
  results : List JsRow
  rowCount : Nat
  executionTime : Nat
  asynchronous : Bool
deriving DecidableEq

/-- `executeQuery` response handling (`src/services/n8n.service.ts` lines
160-204): an acknowledgement `message: "Workflow was started"` yields the
asynchronous empty result; a missing `results` field is an error;
otherwise the rows are returned with their count.  Thrown error messages
are abstracted to `Except.error ()`. -/
def executeQuery (resp : Except Unit N8nData) (executionTime : Nat) :
    Except Unit QueryExecutionResponse :=
  match resp with
  | .error _ => .error ()
  | .ok d =>
    if d.message == some "Workflow was started" then
      .ok ⟨[], 0, executionTime, true⟩
    else
      match d.results with
      | none => .error ()
      | some rs => .ok ⟨rs, rs.length, executionTime, false⟩

/-! ## Schema service (`src/services/schema.service.ts`) -/

/-- Column metadata as assembled by `getColumns`. -/
structure ColumnMetadata where
  name : String
  dataType : String
  isNullable : Bool
  isPrimaryKey : Bool
  isForeignKey : Bool
  defaultValue : Option String
deriving DecidableEq

/-- A foreign-key relationship as assembled by `getRelationships`. -/
structure Relationship where
  columnName : String
  referencedTable : String
  referencedColumn : String
deriving DecidableEq

/-- Table metadata as assembled by `refreshSchema`. -/
structure TableMetadata where
  name : String
  columns : List ColumnMetadata
  primaryKey : Option String
  relationships : List Relationship
deriving DecidableEq

/-- The schema snapshot. -/
structure DatabaseSchema where
  tables : List TableMetadata
deriving DecidableEq

/-- The mutable state of the `SchemaService` singleton: the cached
snapshot (`null` initially), the last refresh time, and the refresh
interval (3600000 ms — one hour). -/
structure SchemaServiceState where
  schema : Option DatabaseSchema
  lastRefreshTime : Int
  refreshIntervalMs : Int
deriving DecidableEq

/-- The state of a freshly constructed `SchemaService`. -/
def initialSchemaState : SchemaServiceState := ⟨none, 0, 3600000⟩

/-- Outcomes of the three database introspection queries, injected as an
environment: the table list, and per-table column and relationship rows
(already mapped to metadata as by `getColumns` / `getRelationships`;
an `Except.error` stands for a query failure, which those helpers
re-throw unchanged). -/
structure SchemaIntrospection where
  tablesResult : Except Unit (List String)
  columnsResult : String → Except Unit (List ColumnMetadata)
  relationshipsResult : String → Except Unit (List Relationship)

/-- The per-table loop of `refreshSchema` (lines 51-63): build the table
list in table-listing order, aborting on the first failed lookup. -/
def buildTables (env : SchemaIntrospection) : List String → Except Unit (List TableMetadata)
  | [] => .ok []
  | tableName :: rest =>
    match env.columnsResult tableName with
    | .error _ => .error ()
    | .ok columns =>
      match env.relationshipsResult tableName with
      | .error _ => .error ()
      | .ok relationships =>
        match buildTables env rest with
        | .error _ => .error ()
        | .ok tables =>
          .ok (⟨tableName, columns, (columns.find? fun col => col.isPrimaryKey).map
            fun col => col.name, relationships⟩ :: tables)

/-- `refreshSchema` (lines 38-74): on success the snapshot and the refresh
timestamp are replaced (the timestamp with the completion time `now2`);
any failure leaves the state untouched and raises a schema-discovery
failure. -/
def refreshSchema (st : SchemaServiceState) (env : SchemaIntrospection) (now2 : Int) :
    Except Unit Unit × SchemaServiceState :=
  match env.tablesResult with
  | .error _ => (.error (), st)
  | .ok tableNames =>
    match buildTables env tableNames with
    | .error _ => (.error (), st)
    | .ok tables =>
      (.ok (), ⟨some ⟨tables⟩, now2, st.refreshIntervalMs⟩)

/-- `getSchema` (lines 20-33): refresh when the snapshot is missing, a
refresh is forced, or the elapsed time exceeds the interval; otherwise
return the cached snapshot with no introspection I/O.  The returned
`Bool` records whether `refreshSchema` was invoked. -/
def getSchema (st : SchemaServiceState) (forceRefresh : Bool) (now now2 : Int)
    (env : SchemaIntrospection) :
    Except Unit (Option DatabaseSchema) × SchemaServiceState × Bool :=
  if st.schema == none || forceRefresh || decide (now - st.lastRefreshTime > st.refreshIntervalMs) then
    match refreshSchema st env now2 with
    | (.error _, st2) => (.error (), st2, true)
    | (.ok _, st2) => (.ok st2.schema, st2, true)
  else
    (.ok st.schema, st, false)

/-! ## Chat orchestrator (`src/controllers/chat.controller.ts`, `processChat`)

The downstream I/O calls are injected as an environment of outcomes; the
pipeline itself is the deterministic sequencing of lines 21-187.  The
conversation identifier, response message texts, and the JSON artifact
(whose save failure is swallowed, lines 123-130) do not affect any claim
and are not tracked.  The user-facing error categorization of lines
156-169 is abstracted to the single code `"PIPELINE_ERROR"`. -/

/-- One row of the audit log, as passed to `databaseService.logQuery`;
the error message text is abstracted to its presence. -/
structure AuditLogEntry where
  queryText : String
  userInput : String
  executionTime : Option Nat
  rowCount : Option Nat
  responseStatus : String
  errorMessage : Option Unit
deriving DecidableEq

/-- Outcomes of the external calls a single chat request can make.
`auditOk i` tells whether the `i`-th `logQuery` call of this request
succeeds (the catch block can issue a second one). -/
structure ChatEnv where
  message : String
  schemaResult : Except Unit Unit
  genSqlResult : Except Unit String
  execResponse : Except Unit N8nData
  execTime : Nat
  summaryResult : Except Unit String
  auditOk : Nat → Bool

/-- What a single `processChat` request produced: the HTTP status of the
JSON response (`none` when an `AppError` propagates to the error
middleware), the `AppError` code in that case, the `asynchronous` flag of
the response body, the audit records actually appended, and how many
times the summarization oracle (`openAIService.generateResponse`) was
invoked. -/
structure ChatOutcome where
  httpStatus : Option Nat
  errorCode : Option String
  responseAsync : Bool
  audits : List AuditLogEntry
  summaryCalls : Nat
deriving DecidableEq

/-- The catch block of lines 145-186: append a best-effort `error` audit
record (its own failure is swallowed, lines 180-182) and re-throw. -/
def catchOutcome (env : ChatEnv) (auditIdx : Nat) (summaryCalls : Nat) : ChatOutcome :=
  ⟨none, some "PIPELINE_ERROR", false,
    if env.auditOk auditIdx then [⟨"", env.message, none, none, "error", some ()⟩] else [],
    summaryCalls⟩

/-- `processChat` (lines 21-187).  Input validation happens before the
`try` block: its rejection bypasses the catch block (and hence the audit
write).  Inside the block: schema fetch, SQL generation, SQL validation
(rethrown as a validation `AppError`, caught by the same outer catch),
execution, then either the asynchronous 202 path or formatting,
summarization, the `success` audit and a 200 response. -/
def processChat (env : ChatEnv) : ChatOutcome :=
  if !validateChatMessageOk env.message then
    ⟨none, some "VALIDATION_ERROR", false, [], 0⟩
  else
    match env.schemaResult with
    | .error _ => catchOutcome env 0 0
    | .ok _ =>
      match env.genSqlResult with
      | .error _ => catchOutcome env 0 0
      | .ok sql0 =>
        match validateSqlQuery sql0 with
        | .error _ => catchOutcome env 0 0
        | .ok _ =>
          let sql := ensureQueryLimit sql0 100
          match executeQuery env.execResponse env.execTime with
          | .error _ => catchOutcome env 0 0
          | .ok qr =>
            if qr.asynchronous then
              if env.auditOk 0 then
                ⟨some 202, none, true, [⟨sql, env.message, none, none, "async", none⟩], 0⟩
              else catchOutcome env 1 0
            else
              match env.summaryResult with
              | .error _ => catchOutcome env 0 1
              | .ok _ =>
                if env.auditOk 0 then
                  ⟨some 200, none, false,
                    [⟨sql, env.message, some qr.executionTime, some qr.rowCount, "success", none⟩], 1⟩
                else catchOutcome env 1 1

/-! ## Claims about `validateSqlQuery` -/

/-- C4: every SQL string containing one of the denylisted keyword patterns
(case-insensitively) is rejected by `validateSqlQuery` with the
dangerous-operation error — the denylist is the first check, so nothing
pre-empts it. -/
theorem c4_dangerous_rejection (sql : String)
    (h : (dangerousPatterns.any fun p => patSearch p sql.data) = true) :
    validateSqlQuery sql = .error .dangerousOperation := by
  unfold validateSqlQuery
  simp [h]

/-- Witness for C4 at `DROP TABLE x`. -/
theorem c4_dangerous_rejection_witness :
    (dangerousPatterns.any fun p => patSearch p ("DROP TABLE x" : String).data) = true ∧
    validateSqlQuery "DROP TABLE x" = .error .dangerousOperation :=
  ⟨by decide, c4_dangerous_rejection "DROP TABLE x" (by decide)⟩

/-- C2 counterexample: `UPDATE users SET x=1` is rejected, but by the
earlier denylist check as a dangerous operation, not with the
`NotReadOnly` (`Query must start with SELECT`) error the claim names. -/
theorem c2_not_read_only_counterexample :
    validateSqlQuery "UPDATE users SET x=1" = .error .dangerousOperation ∧
    validateSqlQuery "UPDATE users SET x=1" ≠ .error .notReadOnly := by
  decide

/-- C2 (amended): every SQL string that contains no denylisted pattern and
whose trimmed, upper-cased form does not start with `SELECT` is rejected
with the `NotReadOnly` error. -/
theorem c2_not_read_only_amended (sql : String)
    (h1 : (dangerousPatterns.any fun p => patSearch p sql.data) = false)
    (h2 : startsWithChars ((jsTrim sql.data).map jsUpper) "SELECT".data = false) :
    validateSqlQuery sql = .error .notReadOnly := by
  unfold validateSqlQuery
  simp [h1, h2]

/-- Witness for the amended C2 at `SHOW TABLES`. -/
theorem c2_not_read_only_amended_witness :
    ((dangerousPatterns.any fun p => patSearch p ("SHOW TABLES" : String).data) = false ∧
      startsWithChars ((jsTrim ("SHOW TABLES" : String).data).map jsUpper) "SELECT".data = false) ∧
    validateSqlQuery "SHOW TABLES" = .error .notReadOnly :=
  ⟨⟨by decide, by decide⟩, c2_not_read_only_amended "SHOW TABLES" (by decide) (by decide)⟩

/-- C1 counterexample: `SELECT 1; DROP TABLE users;` is rejected as a
dangerous operation (the denylist runs first), not as multiple
statements; and `SELECT 1; SELECT 2;` — whose semicolons are not a single
trailing terminator — is accepted outright, because the source only
rejects when the trimmed statement does not end with a semicolon. -/
theorem c1_multiple_statements_counterexample :
    (validateSqlQuery "SELECT 1; DROP TABLE users;" = .error .dangerousOperation ∧
      validateSqlQuery "SELECT 1; DROP TABLE users;" ≠ .error .multipleStatements) ∧
    validateSqlQuery "SELECT 1; SELECT 2;" = .ok true := by
  decide

/-- C1 (amended): a statement containing a semicolon whose trimmed form
does not end with one is rejected as `MultipleStatements`, provided the
three earlier checks (denylist, `SELECT` prefix, balanced parentheses)
pass. -/
theorem c1_multiple_statements_amended (sql : String)
    (h1 : (dangerousPatterns.any fun p => patSearch p sql.data) = false)
    (h2 : startsWithChars ((jsTrim sql.data).map jsUpper) "SELECT".data = true)
    (h3 : sql.data.count '(' = sql.data.count ')')
    (h4 : sql.data.contains ';' = true)
    (h5 : lastIsSemi (jsTrim sql.data) = false) :
    validateSqlQuery sql = .error .multipleStatements := by
  unfold validateSqlQuery
  simp at h4
  simp [h1, h2, h3, h4, h5]

/-- Witness for the amended C1 at `SELECT 1; SELECT 2`. -/
theorem c1_multiple_statements_amended_witness :
    validateSqlQuery "SELECT 1; SELECT 2" = .error .multipleStatements :=
  c1_multiple_statements_amended "SELECT 1; SELECT 2"
    (by decide) (by decide) (by decide) (by decide) (by decide)

/-! ## Claim C5: `ensureQueryLimit` -/

/-- Every character `tdc` produces is a decimal digit. -/
theorem tdc_isDigit : ∀ n, (tdc n).isDigit = true
  | 0 | 1 | 2 | 3 | 4 | 5 | 6 | 7 | 8 => rfl
  | _ + 9 => rfl

/-- With enough fuel, the decimal rendering loop emits at least one digit. -/
theorem natToCharsGo_cons (f : Nat) : ∀ n acc, n < f →
    ∃ c rest, natToCharsGo f n acc = c :: rest ∧ c.isDigit = true := by
  induction f with
  | zero => omega
  | succ f ih =>
    intro n acc h
    by_cases h10 : n < 10
    · exact ⟨tdc n, acc, by simp [natToCharsGo, h10], tdc_isDigit n⟩
    · have hlt : n / 10 < f := by
        have := Nat.div_lt_self (by omega : 0 < n) (by omega : 1 < 10)
        omega
      simpa [natToCharsGo, h10] using ih (n / 10) (tdc (n % 10) :: acc) hlt

/-- The decimal rendering of a number starts with a digit. -/
theorem natToChars_cons (n : Nat) :
    ∃ c rest, natToChars n = c :: rest ∧ c.isDigit = true :=
  natToCharsGo_cons (n + 1) n [] (by omega)

/-- The appended `LIMIT <n>` text itself matches the `LIMIT\s+\d+` regex. -/
theorem matchToks_limit (tail : List Char) (n : Nat) :
    matchToks limitToks ('L' :: 'I' :: 'M' :: 'I' :: 'T' :: ' ' :: (natToChars n ++ tail)) = true := by
  obtain ⟨c, rest, hrepr, hdig⟩ := natToChars_cons n
  rw [show limitToks = [.chrI 'L', .chrI 'I', .chrI 'M', .chrI 'I', .chrI 'T', .ws1, .digits1] from rfl]
  simp [matchToks, hrepr, hdig]
  decide

/-- A prefix match is in particular a search hit. -/
theorem patSearch_of_matchToks (ps : List Tok) (cs : List Char) (h : matchToks ps cs = true) :
    patSearch ps cs = true := by
  cases cs with
  | nil => simpa [patSearch] using h
  | cons c cs => simp [patSearch, h]

/-- A search hit survives prepending one character. -/
theorem patSearch_cons (ps : List Tok) (a : Char) (cs : List Char) (h : patSearch ps cs = true) :
    patSearch ps (a :: cs) = true := by
  simp [patSearch, h]

/-- A search hit survives prepending any list. -/
theorem patSearch_append (ps : List Tok) (pre cs : List Char) (h : patSearch ps cs = true) :
    patSearch ps (pre ++ cs) = true := by
  induction pre with
  | nil => simpa
  | cons a pre ih => simpa [List.cons_append] using patSearch_cons ps a _ ih

/-- C5: `ensureQueryLimit` returns its input unchanged whenever the query
already matches `LIMIT\s+\d+` (for any requested limit, however small);
it is idempotent; `ensureQueryLimit "SELECT * FROM users"` (default limit
100) appends ` LIMIT 100`; an existing `LIMIT 5` is never rewritten; and
on a query without a limit it appends ` LIMIT n` to the trimmed query,
before the trailing semicolon when one is present. -/
theorem c5_ensure_limit :
    (∀ sql n, patSearch limitToks sql.data = true → ensureQueryLimit sql n = sql) ∧
    (∀ sql n, ensureQueryLimit (ensureQueryLimit sql n) n = ensureQueryLimit sql n) ∧
    ensureQueryLimit "SELECT * FROM users" 100 = "SELECT * FROM users LIMIT 100" ∧
    ensureQueryLimit "SELECT * FROM users LIMIT 5" 100 = "SELECT * FROM users LIMIT 5" ∧
    (∀ sql n, patSearch limitToks sql.data = false →
      ensureQueryLimit sql n = String.mk (
        if lastIsSemi (jsTrim sql.data) then
          (jsTrim sql.data).dropLast ++ ' ' :: 'L' :: 'I' :: 'M' :: 'I' :: 'T' :: ' ' :: (natToChars n ++ [';'])
        else
          jsTrim sql.data ++ ' ' :: 'L' :: 'I' :: 'M' :: 'I' :: 'T' :: ' ' :: natToChars n)) := by
  have hkeep : ∀ sql n, patSearch limitToks sql.data = true → ensureQueryLimit sql n = sql := by
    intro sql n h
    unfold ensureQueryLimit ensureQueryLimitL
    simp [h]
  refine ⟨hkeep, ?_, by decide, by decide, ?_⟩
  · intro sql n
    by_cases hp : patSearch limitToks sql.data = true
    · rw [hkeep sql n hp, hkeep sql n hp]
    · have hp2 : patSearch limitToks sql.data = false := by
        simpa using hp
      apply hkeep
      unfold ensureQueryLimit ensureQueryLimitL
      simp only [hp2, Bool.false_eq_true, if_false]
      by_cases hs : lastIsSemi (jsTrim sql.data) = true
      · simp only [hs, if_true]
        exact patSearch_append _ _ _ (patSearch_cons _ ' ' _
          (patSearch_of_matchToks _ _ (matchToks_limit [';'] n)))
      · rw [Bool.not_eq_true] at hs
        simp only [hs, Bool.false_eq_true, if_false]
        have hm := matchToks_limit [] n
        rw [List.append_nil] at hm
        exact patSearch_append _ _ _ (patSearch_cons _ ' ' _
          (patSearch_of_matchToks _ _ hm))
  · intro sql n h
    unfold ensureQueryLimit ensureQueryLimitL
    simp [h]

/-- Witness for C5: the keep-unchanged clause at an existing `LIMIT 5` with
a smaller requested limit 3, and the append clause at `SELECT 1;`. -/
theorem c5_ensure_limit_witness :
    (patSearch limitToks ("SELECT * FROM users LIMIT 5" : String).data = true ∧
      ensureQueryLimit "SELECT * FROM users LIMIT 5" 3 = "SELECT * FROM users LIMIT 5") ∧
    ensureQueryLimit "SELECT 1;" 100 = "SELECT 1 LIMIT 100;" := by
  refine ⟨⟨by decide, c5_ensure_limit.1 "SELECT * FROM users LIMIT 5" 3 (by decide)⟩, ?_⟩
  rw [c5_ensure_limit.2.2.2.2 "SELECT 1;" 100 (by decide)]
  decide

/-! ## Claims C7 and C8: schema cache -/

/-- The per-table loop aborts with an error as soon as any column or
relationship lookup fails. -/
theorem buildTables_error (env : SchemaIntrospection) :
    ∀ ts : List String, (∃ t ∈ ts, env.columnsResult t = .error () ∨ env.relationshipsResult t = .error ()) →
      buildTables env ts = .error () := by
  intro ts
  induction ts with
  | nil => rintro ⟨t, ht, _⟩; cases ht
  | cons a rest ih =>
    rintro ⟨t, ht, hfail⟩
    rcases List.mem_cons.mp ht with rfl | hmem
    · rcases hfail with h | h
      · simp [buildTables, h]
      · cases hc : env.columnsResult t with
        | error e => simp [buildTables, hc]
        | ok cols => simp [buildTables, hc, h]
    · cases hc : env.columnsResult a with
      | error e => simp [buildTables, hc]
      | ok cols =>
        cases hr : env.relationshipsResult a with
        | error e => simp [buildTables, hc, hr]
        | ok rels => simp [buildTables, hc, hr, ih ⟨t, hmem, hfail⟩]

/-- C8: if any step of a schema refresh fails — the table listing, or a
column or relationship lookup for any listed table — then `refreshSchema`
raises the schema-discovery failure and leaves the cached snapshot and the
last-refresh timestamp exactly as they were (no partial snapshot is
published). -/
theorem c8_refresh_failure_frame (st : SchemaServiceState) (env : SchemaIntrospection) (now2 : Int)
    (h : env.tablesResult = .error () ∨
      ∃ ts, env.tablesResult = .ok ts ∧
        ∃ t ∈ ts, env.columnsResult t = .error () ∨ env.relationshipsResult t = .error ()) :
    (refreshSchema st env now2).1 = .error () ∧ (refreshSchema st env now2).2 = st := by
  rcases h with h | ⟨ts, hts, hfail⟩
  · simp [refreshSchema, h]
  · simp [refreshSchema, hts, buildTables_error env ts hfail]

/-- Witness for C8: a refresh whose column lookup fails leaves a non-empty
cached state untouched and reports the failure. -/
theorem c8_refresh_failure_frame_witness :
    (refreshSchema ⟨some ⟨[]⟩, 17, 3600000⟩ ⟨.ok ["t"], fun _ => .error (), fun _ => .ok []⟩ 99).1 = .error () ∧
    (refreshSchema ⟨some ⟨[]⟩, 17, 3600000⟩ ⟨.ok ["t"], fun _ => .error (), fun _ => .ok []⟩ 99).2 =
      ⟨some ⟨[]⟩, 17, 3600000⟩ :=
  c8_refresh_failure_frame ⟨some ⟨[]⟩, 17, 3600000⟩ ⟨.ok ["t"], fun _ => .error (), fun _ => .ok []⟩ 99
    (Or.inr ⟨["t"], rfl, "t", by decide, Or.inl rfl⟩)

/-- C7: `getSchema` invokes a refresh exactly when the snapshot is absent,
a refresh is forced, or more than the refresh interval has elapsed since
the last refresh; otherwise it returns the cached snapshot unchanged with
no introspection I/O; the default interval is 3600000 ms (one hour). -/
theorem c7_get_schema (st : SchemaServiceState) (force : Bool) (now now2 : Int) (env : SchemaIntrospection) :
    ((getSchema st force now now2 env).2.2 = true ↔
      (st.schema = none ∨ force = true ∨ now - st.lastRefreshTime > st.refreshIntervalMs)) ∧
    ((st.schema ≠ none ∧ force = false ∧ ¬(now - st.lastRefreshTime > st.refreshIntervalMs)) →
      getSchema st force now now2 env = (.ok st.schema, st, false)) ∧
    initialSchemaState.refreshIntervalMs = 3600000 := by
  by_cases hc : st.schema = none ∨ force = true ∨ now - st.lastRefreshTime > st.refreshIntervalMs
  · have hb : (st.schema == none || force || decide (now - st.lastRefreshTime > st.refreshIntervalMs)) = true := by
      rcases hc with h | h | h <;> simp [h]
    refine ⟨?_, ?_, rfl⟩
    · unfold getSchema
      rw [hb]
      simp only [if_true]
      cases hr : refreshSchema st env now2 with
      | mk r st2 => cases r <;> simp [hc]
    · rintro ⟨h1, h2, h3⟩
      exfalso
      rcases hc with h | h | h
      · exact h1 h
      · rw [h2] at h; cases h
      · exact h3 h
  · push_neg at hc
    obtain ⟨h1, h2, h3⟩ := hc
    have h2b : force = false := by
      cases force
      · rfl
      · cases h2 rfl
    have hb : (st.schema == none || force || decide (now - st.lastRefreshTime > st.refreshIntervalMs)) = false := by
      simp [h1, h2b, h3]
    refine ⟨?_, ?_, rfl⟩
    · unfold getSchema
      rw [hb]
      simp [h1, h2b, h3]
    · intro _
      unfold getSchema
      rw [hb]
      simp

/-- Witness for C7: a warm, unforced, unexpired cache is served without a
refresh. -/
theorem c7_get_schema_witness :
    getSchema ⟨some ⟨[]⟩, 100, 3600000⟩ false 200 300 ⟨.ok [], fun _ => .ok [], fun _ => .ok []⟩ =
      (.ok (some ⟨[]⟩), ⟨some ⟨[]⟩, 100, 3600000⟩, false) :=
  (c7_get_schema ⟨some ⟨[]⟩, 100, 3600000⟩ false 200 300 ⟨.ok [], fun _ => .ok [], fun _ => .ok []⟩).2.1
    ⟨by decide, rfl, by decide⟩

/-! ## Claims C6 and C3: executor acknowledgement and audit invariant -/

/-- C6: a `{message: "Workflow was started"}` executor payload makes
`executeQuery` return zero rows, row count 0 and the asynchronous flag
without an error; `processChat` then answers HTTP 202 with
`asynchronous: true`, appends exactly one audit record with status
`async`, and never invokes the summarization oracle. -/
theorem c6_async :
    (∀ (d : N8nData) (t : Nat), d.message = some "Workflow was started" →
      executeQuery (.ok d) t = .ok ⟨[], 0, t, true⟩) ∧
    (∀ (env : ChatEnv) (d : N8nData) (sql : String),
      validateChatMessageOk env.message = true →
      env.schemaResult = .ok () →
      env.genSqlResult = .ok sql →
      validateSqlQuery sql = .ok true →
      env.execResponse = .ok d →
      d.message = some "Workflow was started" →
      env.auditOk 0 = true →
      processChat env = ⟨some 202, none, true,
        [⟨ensureQueryLimit sql 100, env.message, none, none, "async", none⟩], 0⟩) := by
  have hexec : ∀ (d : N8nData) (t : Nat), d.message = some "Workflow was started" →
      executeQuery (.ok d) t = .ok ⟨[], 0, t, true⟩ := by
    intro d t h
    unfold executeQuery
    simp [h]
  refine ⟨hexec, ?_⟩
  intro env d sql h1 h2 h3 h4 h5 h6 h7
  simp [processChat, h1, h2, h3, h4, h5, h7, hexec d env.execTime h6]

/-- Witness for C6 at a concrete request and acknowledgement payload. -/
theorem c6_async_witness :
    executeQuery (.ok ⟨some "Workflow was started", none⟩) 7 = .ok ⟨[], 0, 7, true⟩ ∧
    processChat ⟨"show users", .ok (), .ok "SELECT * FROM users",
        .ok ⟨some "Workflow was started", none⟩, 3, .ok "ans", fun _ => true⟩ =
      ⟨some 202, none, true,
        [⟨"SELECT * FROM users LIMIT 100", "show users", none, none, "async", none⟩], 0⟩ := by
  refine ⟨c6_async.1 ⟨some "Workflow was started", none⟩ 7 rfl, ?_⟩
  rw [c6_async.2 ⟨"show users", .ok (), .ok "SELECT * FROM users",
    .ok ⟨some "Workflow was started", none⟩, 3, .ok "ans", fun _ => true⟩
    ⟨some "Workflow was started", none⟩ "SELECT * FROM users"
    (by decide) rfl rfl (by decide) rfl rfl rfl]
  decide

/-- C3 counterexample: a request whose inbound message fails input
validation (the empty message) appends no audit record at all — the
input-validation throw happens before the `try` block, so the catch-side
audit write is bypassed and the per-request record count is 0, not 1. -/
theorem c3_zero_records :
    (processChat ⟨"", .ok (), .ok "SELECT 1", .ok ⟨none, some []⟩, 3, .ok "a", fun _ => true⟩).audits = [] ∧
    (processChat ⟨"", .ok (), .ok "SELECT 1", .ok ⟨none, some []⟩, 3, .ok "a", fun _ => true⟩).audits.length ≠ 1 := by
  decide

/-- C3 (amended): for every request whose message passes input validation
and whose audit writes succeed, exactly one audit record is appended —
with status `success` on the synchronous 200 path, `async` on the 202
acceptance path, and `error` whenever the pipeline failed; a request
rejected by input validation appends no record. -/
theorem c3_audit_amended :
    (∀ env : ChatEnv, validateChatMessageOk env.message = true → (∀ i, env.auditOk i = true) →
      ((processChat env).audits.length = 1 ∧
        ((processChat env).httpStatus = some 200 →
          (processChat env).audits.map (fun a => a.responseStatus) = ["success"]) ∧
        ((processChat env).httpStatus = some 202 →
          (processChat env).audits.map (fun a => a.responseStatus) = ["async"]) ∧
        ((processChat env).httpStatus = none →
          (processChat env).audits.map (fun a => a.responseStatus) = ["error"]))) ∧
    (∀ env : ChatEnv, validateChatMessageOk env.message = false →
      (processChat env).audits = []) := by
  constructor
  · intro env h1 h2
    have ha0 := h2 0
    cases hs : env.schemaResult with
    | error e => simp [processChat, h1, hs, catchOutcome, ha0]
    | ok u =>
      cases hg : env.genSqlResult with
      | error e => simp [processChat, h1, hs, hg, catchOutcome, ha0]
      | ok sql0 =>
        cases hv : validateSqlQuery sql0 with
        | error e => simp [processChat, h1, hs, hg, hv, catchOutcome, ha0]
        | ok b =>
          cases hq : executeQuery env.execResponse env.execTime with
          | error e => simp [processChat, h1, hs, hg, hv, hq, catchOutcome, ha0]
          | ok qr =>
            cases hasync : qr.asynchronous
            · cases hsum : env.summaryResult with
              | error e => simp [processChat, h1, hs, hg, hv, hq, hasync, hsum, catchOutcome, ha0]
              | ok ans => simp [processChat, h1, hs, hg, hv, hq, hasync, hsum, ha0]
            · simp [processChat, h1, hs, hg, hv, hq, hasync, ha0]
  · intro env h
    simp [processChat, h]

/-- Witness for the amended C3: one record on a successful request, zero
on an input-validation rejection. -/
theorem c3_audit_amended_witness :
    (processChat ⟨"hi", .ok (), .ok "SELECT 1", .ok ⟨none, some []⟩, 3, .ok "a", fun _ => true⟩).audits.length = 1 ∧
    (processChat ⟨"  ", .ok (), .ok "SELECT 1", .ok ⟨none, some []⟩, 3, .ok "a", fun _ => true⟩).audits = [] :=
  ⟨(c3_audit_amended.1 ⟨"hi", .ok (), .ok "SELECT 1", .ok ⟨none, some []⟩, 3, .ok "a", fun _ => true⟩
      (by decide) (fun _ => rfl)).1,
    c3_audit_amended.2 ⟨"  ", .ok (), .ok "SELECT 1", .ok ⟨none, some []⟩, 3, .ok "a", fun _ => true⟩
      (by decide)⟩

/-! ## Claims C9 and C10: `formatTimestamps` -/

/-- Unfolding lemma for the string constructor. -/
theorem data_mk (l : List Char) : (String.mk l).data = l := rfl

/-- Reading back a rendered digit recovers the digit. -/
theorem digitVal_tdc_mod (n : Nat) : digitVal (tdc (n % 10)) = n % 10 := by
  have hall : ∀ k, k < 10 → digitVal (tdc k) = k := by decide
  exact hall (n % 10) (Nat.mod_lt _ (by omega))

/-- Digit characters are never the letter `T`. -/
theorem tdc_beq_T : ∀ n, (tdc n == 'T') = false
  | 0 | 1 | 2 | 3 | 4 | 5 | 6 | 7 | 8 => rfl
  | _ + 9 => rfl

/-- Recomposing a number of at most four digits from its decimal digits. -/
theorem four_digits (y : Nat) (hy : y ≤ 9999) :
    1000 * (y / 1000 % 10) + 100 * (y / 100 % 10) + 10 * (y / 10 % 10) + y % 10 = y := by
  have b1 : y / 10 / 10 = y / 100 := by rw [Nat.div_div_eq_div_mul]
  have b2 : y / 100 / 10 = y / 1000 := by rw [Nat.div_div_eq_div_mul]
  have b3 : y / 1000 / 10 = y / 10000 := by rw [Nat.div_div_eq_div_mul]
  have b4 : y / 10000 = 0 := Nat.div_eq_of_lt (by omega)
  omega

/-- Recomposing a number of at most three digits from its decimal digits. -/
theorem three_digits (ms : Nat) (hms : ms ≤ 999) :
    100 * (ms / 100 % 10) + 10 * (ms / 10 % 10) + ms % 10 = ms := by
  have b1 : ms / 10 / 10 = ms / 100 := by rw [Nat.div_div_eq_div_mul]
  have b2 : ms / 100 / 10 = ms / 1000 := by rw [Nat.div_div_eq_div_mul]
  have b3 : ms / 1000 = 0 := Nat.div_eq_of_lt (by omega)
  omega

/-- Recomposing a number of at most two digits from its decimal digits. -/
theorem two_digits (n : Nat) (hn : n ≤ 99) :
    10 * (n / 10 % 10) + n % 10 = n := by
  have b1 : n / 10 / 10 = n / 100 := by rw [Nat.div_div_eq_div_mul]
  have b2 : n / 100 = 0 := Nat.div_eq_of_lt (by omega)
  omega

/-- No Gregorian month has more than 31 days. -/
theorem daysInMonth_le (y mo : Nat) : daysInMonth y mo ≤ 31 := by
  unfold daysInMonth
  split
  · split
    · omega
    · omega
  all_goals omega

/-- Parsing the printed ISO string of a valid date recovers the date. -/
theorem jsNewDate_iso (y mo d h mi s ms : Nat)
    (hy : y ≤ 9999) (hmo1 : 1 ≤ mo) (hmo : mo ≤ 12) (hd1 : 1 ≤ d) (hd : d ≤ daysInMonth y mo)
    (hh : h ≤ 23) (hmi : mi ≤ 59) (hs : s ≤ 59) (hms : ms ≤ 999) :
    jsNewDate (toISOString ⟨y, mo, d, h, mi, s, ms⟩) = some ⟨y, mo, d, h, mi, s, ms⟩ := by
  unfold toISOString jsNewDate
  rw [data_mk]
  simp only [dateToIsoChars, pad4L, pad2L, pad3L, List.cons_append, List.append_nil,
    List.nil_append]
  simp only [tdc_isDigit, Bool.and_self, Bool.true_and, Bool.and_true, if_true, parseMsZ,
    digitVal_tdc_mod]
  rw [four_digits y hy, two_digits mo (by omega), two_digits d ?hd99, two_digits h (by omega),
    two_digits mi (by omega), two_digits s (by omega), three_digits ms hms]
  case hd99 =>
    have := daysInMonth_le y mo
    omega
  unfold mkValidDate
  rw [if_pos]
  exact ⟨hmo1, hmo, hd1, hd, hh, hmi, hs, hms⟩

/-- `formatDate` of a valid date prints the canonical
`YYYY-MM-DD HH:MM:SS` form: the `T` becomes a space and the fractional
seconds and zone marker fall to the 19-character cut. -/
theorem formatDate_some (t : DateTime) :
    formatDate (some t) = canonicalTs t.year t.month t.day t.hour t.minute t.second := by
  unfold formatDate canonicalTs dateToIsoChars
  simp only [pad4L, pad2L, pad3L, List.cons_append, List.append_nil, List.nil_append]
  simp only [replaceFirst, tdc_beq_T,
    (show (('-' : Char) == 'T') = false by decide),
    (show (('T' : Char) == 'T') = true by decide),
    Bool.false_eq_true, if_false, if_true]
  simp [List.take]

/-- A printed date matches the timestamp-shape regex of
`formatTimestamps`. -/
theorem matchToks_ts (y mo d h mi s : Nat) (rest : List Char) :
    matchToks tsToks (pad4L y ++ '-' :: pad2L mo ++ '-' :: pad2L d ++
      'T' :: pad2L h ++ ':' :: pad2L mi ++ ':' :: (pad2L s ++ rest)) = true := by
  simp [tsToks, matchToks, pad4L, pad2L, tdc_isDigit]

/-- A cell holding the full printed ISO string of a valid date is
rewritten to the canonical 19-character form. -/
theorem formatValue_iso (y mo d h mi s ms : Nat)
    (hy : y ≤ 9999) (hmo1 : 1 ≤ mo) (hmo : mo ≤ 12) (hd1 : 1 ≤ d) (hd : d ≤ daysInMonth y mo)
    (hh : h ≤ 23) (hmi : mi ≤ 59) (hs : s ≤ 59) (hms : ms ≤ 999) :
    formatValue (JsValue.vStr (toISOString ⟨y, mo, d, h, mi, s, ms⟩)) =
      JsValue.vStr (canonicalTs y mo d h mi s) := by
  have hshape : matchToks tsToks (toISOString ⟨y, mo, d, h, mi, s, ms⟩).data = true := by
    have := matchToks_ts y mo d h mi s ('.' :: pad3L ms ++ ['Z'])
    unfold toISOString
    rw [data_mk]
    unfold dateToIsoChars
    simpa using this
  simp only [formatValue, hshape, if_true]
  rw [jsNewDate_iso y mo d h mi s ms hy hmo1 hmo hd1 hd hh hmi hs hms]
  rw [formatDate_some]

/-- Parsing the `Z`-suffixed ISO form without fractional seconds of a
valid date recovers the date with zero milliseconds. -/
theorem jsNewDate_isoNoMs (y mo d h mi s : Nat)
    (hy : y ≤ 9999) (hmo1 : 1 ≤ mo) (hmo : mo ≤ 12) (hd1 : 1 ≤ d) (hd : d ≤ daysInMonth y mo)
    (hh : h ≤ 23) (hmi : mi ≤ 59) (hs : s ≤ 59) :
    jsNewDate (isoNoMsString ⟨y, mo, d, h, mi, s, 0⟩) = some ⟨y, mo, d, h, mi, s, 0⟩ := by
  unfold isoNoMsString jsNewDate
  rw [data_mk]
  simp only [pad4L, pad2L, List.cons_append, List.append_nil, List.nil_append]
  simp only [tdc_isDigit, Bool.and_self, Bool.true_and, Bool.and_true, if_true, parseMsZ,
    digitVal_tdc_mod]
  rw [four_digits y hy, two_digits mo (by omega), two_digits d ?hd99, two_digits h (by omega),
    two_digits mi (by omega), two_digits s (by omega)]
  case hd99 =>
    have := daysInMonth_le y mo
    omega
  unfold mkValidDate
  rw [if_pos]
  exact ⟨hmo1, hmo, hd1, hd, hh, hmi, hs, by omega⟩

/-- A cell holding the `Z`-suffixed ISO string without fractional seconds
of a valid date is rewritten to the canonical 19-character form. -/
theorem formatValue_isoNoMs (y mo d h mi s : Nat)
    (hy : y ≤ 9999) (hmo1 : 1 ≤ mo) (hmo : mo ≤ 12) (hd1 : 1 ≤ d) (hd : d ≤ daysInMonth y mo)
    (hh : h ≤ 23) (hmi : mi ≤ 59) (hs : s ≤ 59) :
    formatValue (JsValue.vStr (isoNoMsString ⟨y, mo, d, h, mi, s, 0⟩)) =
      JsValue.vStr (canonicalTs y mo d h mi s) := by
  have hshape : matchToks tsToks (isoNoMsString ⟨y, mo, d, h, mi, s, 0⟩).data = true := by
    have := matchToks_ts y mo d h mi s ['Z']
    unfold isoNoMsString
    rw [data_mk]
    simpa using this
  simp only [formatValue, hshape, if_true]
  rw [jsNewDate_isoNoMs y mo d h mi s hy hmo1 hmo hd1 hd hh hmi hs]
  rw [formatDate_some]

/-- `formatTimestamps` rewrites the cell at any position by `formatValue`,
keeping its key and position. -/
theorem formatTimestamps_entry (rows : List JsRow) (i j : Nat) (k : String) (v : JsValue)
    (h : ((rows[i]?).bind fun r => r[j]?) = some (k, v)) :
    ((formatTimestamps rows)[i]?.bind fun r => r[j]?) = some (k, formatValue v) := by
  cases hri : rows[i]? with
  | none => simp [hri] at h
  | some r =>
    simp only [hri, Option.some_bind] at h
    simp [formatTimestamps, List.getElem?_map, hri, h]

/-- `formatValue` leaves any non-`Date`, non-timestamp-shaped value
untouched. -/
theorem formatValue_frame (v : JsValue)
    (hd : ∀ dOpt, v ≠ JsValue.vDate dOpt)
    (hs : ∀ s, v = JsValue.vStr s → matchToks tsToks s.data = false) :
    formatValue v = v := by
  cases v with
  | vStr s => simp [formatValue, hs s rfl]
  | vNum n => rfl
  | vBool b => rfl
  | vNull => rfl
  | vDate d => exact absurd rfl (hd d)

/-- C9: the claim's round-trip example holds, and in general every cell
holding an ISO-8601 UTC timestamp string of a valid calendar date —
whether with a three-digit fraction (`YYYY-MM-DDTHH:MM:SS.mmmZ`) or
without (`YYYY-MM-DDTHH:MM:SSZ`) — is replaced in place by the canonical
`YYYY-MM-DD HH:MM:SS` rendering of the same instant. -/
theorem c9_timestamp_format :
    (formatTimestamps [[("created_at", JsValue.vStr "2023-10-15T14:30:22.000Z")]] =
      [[("created_at", JsValue.vStr "2023-10-15 14:30:22")]]) ∧
    (∀ (rows : List JsRow) (i j : Nat) (k : String) (y mo d h mi s ms : Nat),
      y ≤ 9999 → 1 ≤ mo → mo ≤ 12 → 1 ≤ d → d ≤ daysInMonth y mo →
      h ≤ 23 → mi ≤ 59 → s ≤ 59 → ms ≤ 999 →
      ((rows[i]?).bind fun r => r[j]?) = some (k, JsValue.vStr (toISOString ⟨y, mo, d, h, mi, s, ms⟩)) →
      ((formatTimestamps rows)[i]?.bind fun r => r[j]?) = some (k, JsValue.vStr (canonicalTs y mo d h mi s))) ∧
    (∀ (rows : List JsRow) (i j : Nat) (k : String) (y mo d h mi s : Nat),
      y ≤ 9999 → 1 ≤ mo → mo ≤ 12 → 1 ≤ d → d ≤ daysInMonth y mo →
      h ≤ 23 → mi ≤ 59 → s ≤ 59 →
      ((rows[i]?).bind fun r => r[j]?) = some (k, JsValue.vStr (isoNoMsString ⟨y, mo, d, h, mi, s, 0⟩)) →
      ((formatTimestamps rows)[i]?.bind fun r => r[j]?) = some (k, JsValue.vStr (canonicalTs y mo d h mi s))) := by
  refine ⟨by decide, ?_, ?_⟩
  · intro rows i j k y mo d h mi s ms hy hmo1 hmo hd1 hd hh hmi hs hms hentry
    have hmap := formatTimestamps_entry rows i j k _ hentry
    rwa [formatValue_iso y mo d h mi s ms hy hmo1 hmo hd1 hd hh hmi hs hms] at hmap
  · intro rows i j k y mo d h mi s hy hmo1 hmo hd1 hd hh hmi hs hentry
    have hmap := formatTimestamps_entry rows i j k _ hentry
    rwa [formatValue_isoNoMs y mo d h mi s hy hmo1 hmo hd1 hd hh hmi hs] at hmap

/-- Witness for C9 at the claim's `created_at` instant. -/
theorem c9_timestamp_format_witness :
    ((formatTimestamps [[("created_at", JsValue.vStr (toISOString ⟨2023, 10, 15, 14, 30, 22, 0⟩))]])[0]?.bind
      fun r => r[0]?) = some ("created_at", JsValue.vStr (canonicalTs 2023 10 15 14 30 22)) :=
  c9_timestamp_format.2.1 [[("created_at", JsValue.vStr (toISOString ⟨2023, 10, 15, 14, 30, 22, 0⟩))]]
    0 0 "created_at" 2023 10 15 14 30 22 0 (by decide) (by decide) (by decide) (by decide)
    (by decide) (by decide) (by decide) (by decide) (by decide) rfl

/-- C10: `formatTimestamps` preserves the number and order of rows, each
row's length and key sequence, and leaves unchanged every cell whose
value is neither a `Date` object nor a string starting with the
timestamp shape; only timestamp-shaped cells are rewritten. -/
theorem c10_frame (rows : List JsRow) :
    ((formatTimestamps rows).length = rows.length) ∧
    (∀ i : Nat, ((formatTimestamps rows)[i]?).map List.length = (rows[i]?).map List.length) ∧
    (∀ i : Nat, ((formatTimestamps rows)[i]?).map (List.map (Prod.fst : String × JsValue → String)) =
      (rows[i]?).map (List.map (Prod.fst : String × JsValue → String))) ∧
    (∀ (i j : Nat) (k : String) (v : JsValue), ((rows[i]?).bind fun r => r[j]?) = some (k, v) →
      (∀ dOpt, v ≠ JsValue.vDate dOpt) →
      (∀ s, v = JsValue.vStr s → matchToks tsToks s.data = false) →
      ((formatTimestamps rows)[i]?.bind fun r => r[j]?) = some (k, v)) := by
  refine ⟨by simp [formatTimestamps], ?_, ?_, ?_⟩
  · intro i
    cases hri : rows[i]? <;> simp [formatTimestamps, List.getElem?_map, hri]
  · intro i
    cases hri : rows[i]? <;> simp [formatTimestamps, List.getElem?_map, hri]
  · intro i j k v h hd hs
    have hmap := formatTimestamps_entry rows i j k v h
    rwa [formatValue_frame v hd hs] at hmap

/-- Witness for C10: a numeric cell and a non-timestamp string cell pass
through unchanged. -/
theorem c10_frame_witness :
    ((formatTimestamps [[("n", JsValue.vNum 5), ("name", JsValue.vStr "alice")]])[0]?.bind
      fun r => r[1]?) = some ("name", JsValue.vStr "alice") :=
  (c10_frame [[("n", JsValue.vNum 5), ("name", JsValue.vStr "alice")]]).2.2.2 0 1 "name"
    (JsValue.vStr "alice") rfl (fun _ h => nomatch h)
    (fun s h => by cases h; decide)
